import Mathlib

/-!
Verification development for the scorecast-live-streamer stream relay
subsystem.  The server-side session manager is embedded from the Deno edge
function (src/unnamed/part_010, the iteration of
supabase/functions/stream-relay/index.ts that performs the ffmpeg
availability check); the client-side connection controller is embedded from
src/src/hooks/useStreamRelay.ts (identical, in the modelled logic, to the
iteration in src/unnamed/part_003); the HTTP status endpoints are embedded
from src/server.js.
-/

namespace StreamRelay

/-! ### Control messages (section 6 of the design: JSON over text frames) -/

/-- Messages sent client to server over the socket as JSON text frames.
The streamKey field of stream-start is an optional string: none models an
absent JSON field, and JavaScript truthiness makes the empty string behave
like an absent one. -/
inductive ClientMsg where
  | streamStart (streamKey : Option String)
  | streamStop
  | ping (timestamp : Nat)
  | unknown (t : String)
deriving DecidableEq, Repr

/-- Messages sent server to client over the socket as JSON text frames. -/
inductive ServerMsg where
  | connection (status : String) (message : String)
  | streamStatus (status : String) (message : String)
  | error (message : String)
  | pong (timestamp : String)
  | chunkReceived (timestamp : String)
deriving DecidableEq, Repr

/-- JavaScript truthiness of the streamKey field: `!message.streamKey` is
true exactly when the field is missing or the empty string. -/
def keyPresent : Option String → Bool
  | none => false
  | some s => !s.isEmpty

/-! ### Server-side session registry

The Deno function keeps `activeStreams : Map<string, StreamProcess>` and
`sockets : Map<string, WebSocket>`.  We model the first as an association
list with Map get/set/delete semantics and the second as the list of its
keys. -/

/-- One entry of the activeStreams map: `process` is the spawned ffmpeg
child (a numeric handle here; null in the simulated fallback), `key` the
stream key, `startTime` the Date.now() at creation. -/
structure StreamProcess where
  process : Option Nat
  key : String
  startTime : Nat
deriving DecidableEq, Repr

/-- Map.get on the association list. -/
def mapGet (m : List (String × StreamProcess)) (k : String) : Option StreamProcess :=
  match m with
  | [] => none
  | (k2, v) :: rest => if k2 = k then some v else mapGet rest k

/-- Map.delete on the association list. -/
def mapDelete (m : List (String × StreamProcess)) (k : String) :
    List (String × StreamProcess) :=
  match m with
  | [] => []
  | (k2, v) :: rest =>
      if k2 = k then mapDelete rest k else (k2, v) :: mapDelete rest k

/-- Map.set on the association list: replace the binding if the key is
present, append it otherwise. -/
def mapSet (m : List (String × StreamProcess)) (k : String) (v : StreamProcess) :
    List (String × StreamProcess) :=
  match m with
  | [] => [(k, v)]
  | (k2, w) :: rest =>
      if k2 = k then (k2, v) :: rest else (k2, w) :: mapSet rest k v

/-- Removal of a socket id from the connected-sockets bookkeeping
(`sockets.delete(socketId)`). -/
def removeSocket (l : List String) (k : String) : List String :=
  match l with
  | [] => []
  | s :: rest => if s = k then removeSocket rest k else s :: removeSocket rest k

/-- Server state: the two module-level maps of the Deno function. -/
structure ServerState where
  activeStreams : List (String × StreamProcess)
  sockets : List String
deriving DecidableEq, Repr

/-- Host environment of one handler run: whether `ffmpeg -version` succeeds,
whether `Deno.Command(...).spawn()` throws (resource failure distinct from
tool absence), the handle a successful spawn would produce, the current
Date.now() and Date().toISOString(), and the readyState of the socket the
reply would be sent on. -/
structure ServerEnv where
  ffmpegAvailable : Bool
  spawnFails : Bool
  freshHandle : Nat
  now : Nat
  nowIso : String
  socketOpen : Bool
deriving DecidableEq, Repr

/-- Observable side effects of a server handler run. -/
inductive Effect where
  | send (socketId : String) (msg : ServerMsg)
  | sendDelayed (delayMs : Nat) (socketId : String) (msg : ServerMsg)
  | killProcess (handle : Nat)
deriving DecidableEq, Repr

/-- Sends in part_010 are guarded by `socket.readyState === WebSocket.OPEN`. -/
def sendIfOpen (env : ServerEnv) (socketId : String) (m : ServerMsg) : List Effect :=
  if env.socketOpen then [Effect.send socketId m] else []

/-- cleanupProcess (part_010 lines 19-31): if the registry entry for the
socket holds a real child process, SIGTERM and close it (errors swallowed);
in every case delete the registry entry. -/
def cleanupProcess (st : ServerState) (socketId : String) :
    ServerState × List Effect :=
  let effs :=
    match mapGet st.activeStreams socketId with
    | some sp =>
        match sp.process with
        | some h => [Effect.killProcess h]
        | none => []
    | none => []
  ({ st with activeStreams := mapDelete st.activeStreams socketId }, effs)

/-- startFFmpegProcess (part_010 lines 64-132): refuse when the tool is
unavailable; otherwise spawn ffmpeg reading from stdin and record the
session, falling back to a simulated session with a null process handle
when the spawn itself throws.  Returns the updated state and the boolean
result. -/
def startFFmpegProcess (env : ServerEnv) (st : ServerState)
    (socketId streamKey : String) : ServerState × Bool :=
  if env.ffmpegAvailable = false then
    (st, false)
  else if env.spawnFails then
    let entry : StreamProcess := ⟨none, streamKey, env.now⟩
    ({ st with activeStreams := mapSet st.activeStreams socketId entry }, true)
  else
    let entry : StreamProcess := ⟨some env.freshHandle, streamKey, env.now⟩
    ({ st with activeStreams := mapSet st.activeStreams socketId entry }, true)

/-- socket.onmessage for text frames (part_010 lines 364-457): dispatch on
the type field. -/
def handleTextMessage (env : ServerEnv) (st : ServerState) (socketId : String) :
    ClientMsg → ServerState × List Effect
  | .streamStart key =>
      if keyPresent key = false then
        (st, sendIfOpen env socketId (.error "No stream key provided"))
      else
        let res := startFFmpegProcess env st socketId (key.getD "")
        if res.2 then
          (res.1, [Effect.sendDelayed 2000 socketId
            (.streamStatus "live" "Stream is now live on Facebook")])
        else
          (res.1, sendIfOpen env socketId
            (.error "Failed to start streaming process - FFmpeg may not be available"))
  | .streamStop =>
      let res := cleanupProcess st socketId
      (res.1, res.2 ++ [Effect.sendDelayed 1000 socketId
        (.streamStatus "stopped" "Stream has been stopped")])
  | .ping _ts =>
      (st, sendIfOpen env socketId (.pong env.nowIso))
  | .unknown _t =>
      (st, sendIfOpen env socketId (.error "Unknown message type"))

/-- socket.onclose (part_010 lines 465-469): cleanupProcess then remove the
socket from the bookkeeping map. -/
def onSocketClose (st : ServerState) (socketId : String) :
    ServerState × List Effect :=
  let res := cleanupProcess st socketId
  ({ res.1 with sockets := removeSocket res.1.sockets socketId }, res.2)

/-- socket.onerror (part_010 lines 459-463): same body as onclose. -/
def onSocketError (st : ServerState) (socketId : String) :
    ServerState × List Effect :=
  let res := cleanupProcess st socketId
  ({ res.1 with sockets := removeSocket res.1.sockets socketId }, res.2)

/-! ### Association-list lemmas for the registry -/

theorem mapGet_mapDelete_self (m : List (String × StreamProcess)) (k : String) :
    mapGet (mapDelete m k) k = none := by
  induction m with
  | nil => simp [mapDelete, mapGet]
  | cons p rest ih =>
      by_cases h : p.1 = k
      · simpa [mapDelete, h] using ih
      · simp [mapDelete, mapGet, h, ih]

theorem mapGet_mapDelete_ne (m : List (String × StreamProcess)) (k k2 : String)
    (hne : k2 ≠ k) : mapGet (mapDelete m k) k2 = mapGet m k2 := by
  induction m with
  | nil => simp [mapDelete]
  | cons p rest ih =>
      by_cases h : p.1 = k
      · have hk : ¬ k = k2 := fun hc => hne hc.symm
        simp [mapDelete, mapGet, h, hk, ih]
      · by_cases h2 : p.1 = k2
        · simp [mapDelete, mapGet, h, h2, hne]
        · simp [mapDelete, mapGet, h, h2, ih]

theorem mapDelete_mapDelete_self (m : List (String × StreamProcess)) (k : String) :
    mapDelete (mapDelete m k) k = mapDelete m k := by
  induction m with
  | nil => simp [mapDelete]
  | cons p rest ih =>
      by_cases h : p.1 = k
      · simp [mapDelete, h, ih]
      · simp [mapDelete, h, ih]

theorem mapGet_mapSet_self (m : List (String × StreamProcess)) (k : String)
    (v : StreamProcess) : mapGet (mapSet m k v) k = some v := by
  induction m with
  | nil => simp [mapSet, mapGet]
  | cons p rest ih =>
      by_cases h : p.1 = k
      · simp [mapSet, mapGet, h]
      · simp [mapSet, mapGet, h, ih]

theorem mem_removeSocket (l : List String) (k s : String) :
    s ∈ removeSocket l k ↔ s ∈ l ∧ s ≠ k := by
  induction l with
  | nil => simp [removeSocket]
  | cons a rest ih =>
      by_cases h : a = k
      · subst h
        simp [removeSocket, ih]
        intro hs
        exact fun hc => (hs hc).elim
      · simp [removeSocket, h, ih]
        constructor
        · rintro (rfl | ⟨hm, hn⟩)
          · exact ⟨Or.inl rfl, fun hc => h (by rw [← hc])⟩
          · exact ⟨Or.inr hm, hn⟩
        · rintro ⟨(rfl | hm), hn⟩
          · exact Or.inl rfl
          · exact Or.inr ⟨hm, hn⟩

/-! ### Client-side connection controller (src/src/hooks/useStreamRelay.ts)

The hook state is embedded as one record: the React state object
(isConnected, isStreaming, status, error, stats), the mutable refs
(socketRef, reconnectAttemptsRef, reconnectTimerRef, statsTimerRef,
heartbeatTimerRef, lastPingTimeRef), and, to reason about socket leaks, the
list of readyStates of sockets whose reference the controller has dropped.
Handlers are detached from a socket before it is dropped, so events fire
only on the current socket, and control-message handlers only while it is
open. -/

/-- Client status values (the phase of the design). -/
inductive Phase where
  | idle
  | connecting
  | connected
  | streaming
  | error
  | disconnected
deriving DecidableEq, Repr

/-- WebSocket readyState values. -/
inductive SockState where
  | connecting
  | opened
  | closing
  | closed
deriving DecidableEq, Repr

/-- A socket is live while it is CONNECTING or OPEN. -/
def isLive : SockState → Bool
  | .connecting => true
  | .opened => true
  | _ => false

/-- Options of the hook with their defaults. -/
structure ClientOptions where
  autoReconnect : Bool := true
  maxReconnectAttempts : Nat := 5
  reconnectInterval : Nat := 5000
deriving DecidableEq, Repr

/-- Controller state: React state, refs, and the dropped-socket ledger. -/
structure ClientState where
  isConnected : Bool
  isStreaming : Bool
  status : Phase
  error : Option String
  bytesSent : Nat
  dataChunks : Nat
  startTime : Option Nat
  duration : Nat
  ffmpegStatus : Option String
  socket : Option SockState
  detached : List SockState
  reconnectAttempts : Nat
  reconnectTimer : Bool
  statsTimer : Bool
  heartbeatTimer : Bool
  lastPingTime : Option Nat
deriving DecidableEq, Repr

/-- Initial hook state. -/
def initClient : ClientState :=
  { isConnected := false
    isStreaming := false
    status := .idle
    error := none
    bytesSent := 0
    dataChunks := 0
    startTime := none
    duration := 0
    ffmpegStatus := none
    socket := none
    detached := []
    reconnectAttempts := 0
    reconnectTimer := false
    statsTimer := false
    heartbeatTimer := false
    lastPingTime := none }

/-- Guard used throughout the hook:
`socketRef.current && socketRef.current.readyState === WebSocket.OPEN`. -/
def socketIsOpen (st : ClientState) : Bool :=
  match st.socket with
  | some .opened => true
  | _ => false

/-- Observable side effects of a controller step. -/
inductive ClientEffect where
  | sendControl (msg : ClientMsg)
  | sendFrame (size : Nat)
  | warn (s : String)
  | logLatency (ms : Nat)
deriving DecidableEq, Repr

/-- Warning printed by sendBinaryData when its guard fails. -/
def cannotSendMsg : String :=
  "Cannot send data: Railway socket is not open or not streaming"

/-- Error recorded when the reconnect budget is exhausted. -/
def exhaustMessage (n : Nat) : String :=
  "Failed to reconnect after " ++ toString n ++ " attempts"

/-- Error recorded by socket.onerror. -/
def connErrMsg : String := "Connection error with Railway streaming server"

/-- cleanUp (useStreamRelay.ts lines 71-100): detach all handlers from the
current socket, close it when it is OPEN or CONNECTING, drop the reference,
and clear the reconnect, stats and heartbeat timers.  The dropped socket is
recorded in the detached ledger with the readyState it had after the
conditional close. -/
def cleanUp (st : ClientState) : ClientState :=
  let st2 :=
    match st.socket with
    | none => st
    | some rs =>
        let rs2 := if isLive rs then SockState.closing else rs
        { st with socket := none, detached := rs2 :: st.detached }
  { st2 with reconnectTimer := false, statsTimer := false, heartbeatTimer := false }

/-- Body of connect() up to handler installation (lines 198-205): cleanUp,
set status connecting with no error, open a fresh socket. -/
def stepConnectBody (st : ClientState) : ClientState :=
  let st2 := cleanUp st
  { st2 with status := .connecting, error := none, socket := some .connecting }

/-- sendBinaryData (lines 455-476): warn and do nothing unless the socket is
open and the streaming flag is set; otherwise send the blob as one binary
frame and add its size to bytesSent and one to dataChunks. -/
def sendBinaryData (st : ClientState) (size : Nat) : ClientState × List ClientEffect :=
  if !(socketIsOpen st) || !st.isStreaming then
    (st, [ClientEffect.warn cannotSendMsg])
  else
    ({ st with bytesSent := st.bytesSent + size, dataChunks := st.dataChunks + 1 },
     [ClientEffect.sendFrame size])

/-- Events the controller reacts to: its public API calls, the socket
callbacks, the received control messages, and timer expiry. -/
inductive ClientEvent where
  | connectCall
  | socketOpened
  | socketClosed
  | socketErrored
  | disconnectCall
  | startStreamSend (key : String)
  | stopStreamSend
  | recvConnection
  | recvStatusLive (now : Nat)
  | recvStatusStopped
  | recvPong (now : Nat)
  | recvError (msg : String)
  | sendChunk (size : Nat)
  | heartbeat (now : Nat)
  | reconnectTimerFired
deriving DecidableEq, Repr

/-- One controller step, returning the new state and emitted effects.
Socket callbacks only fire on the current socket (handlers are detached
from dropped ones) and message handlers only while it is open. -/
def clientStepE (cfg : ClientOptions) (e : ClientEvent) (st : ClientState) :
    ClientState × List ClientEffect :=
  match e with
  | .connectCall => (stepConnectBody st, [])
  | .socketOpened =>
      match st.socket with
      | some .connecting =>
          ({ st with
             socket := some .opened, isConnected := true,
             status := .connected, error := none,
             reconnectAttempts := 0, heartbeatTimer := true }, [])
      | _ => (st, [])
  | .socketClosed =>
      match st.socket with
      | some rs =>
          if isLive rs then
            let st2 : ClientState := { st with
              socket := some SockState.closed,
              isConnected := false, isStreaming := false,
              status := .disconnected,
              statsTimer := false, heartbeatTimer := false }
            if cfg.autoReconnect ∧ st2.reconnectAttempts < cfg.maxReconnectAttempts then
              ({ st2 with
                 reconnectAttempts := st2.reconnectAttempts + 1,
                 reconnectTimer := true }, [])
            else if cfg.maxReconnectAttempts ≤ st2.reconnectAttempts then
              ({ st2 with error := some (exhaustMessage cfg.maxReconnectAttempts) }, [])
            else
              (st2, [])
          else (st, [])
      | none => (st, [])
  | .socketErrored =>
      match st.socket with
      | some rs =>
          if isLive rs then ({ st with error := some connErrMsg }, []) else (st, [])
      | none => (st, [])
  | .disconnectCall =>
      let effs := if st.isStreaming ∧ socketIsOpen st then
          [ClientEffect.sendControl .streamStop] else []
      let st2 := { st with status := .disconnected }
      (cleanUp st2, effs)
  | .startStreamSend key =>
      if socketIsOpen st then
        ({ st with
           bytesSent := 0, dataChunks := 0, startTime := none,
           duration := 0, ffmpegStatus := some "starting" },
         [ClientEffect.sendControl (.streamStart (some key))])
      else (st, [])
  | .stopStreamSend =>
      if socketIsOpen st then (st, [ClientEffect.sendControl .streamStop])
      else (st, [])
  | .recvConnection => (st, [])
  | .recvStatusLive now =>
      if socketIsOpen st then
        ({ st with
           isStreaming := true, status := .streaming,
           startTime := some now, duration := 0,
           ffmpegStatus := some "active", statsTimer := true }, [])
      else (st, [])
  | .recvStatusStopped =>
      if socketIsOpen st then
        ({ st with
           isStreaming := false, status := .connected,
           startTime := none, duration := 0,
           ffmpegStatus := none, statsTimer := false }, [])
      else (st, [])
  | .recvPong now =>
      if socketIsOpen st then
        match st.lastPingTime with
        | some t => ({ st with lastPingTime := none },
                     [ClientEffect.logLatency (now - t)])
        | none => (st, [])
      else (st, [])
  | .recvError _msg => (st, [])
  | .sendChunk size => sendBinaryData st size
  | .heartbeat now =>
      if socketIsOpen st then
        ({ st with lastPingTime := some now },
         [ClientEffect.sendControl (.ping now)])
      else (st, [])
  | .reconnectTimerFired =>
      if st.reconnectTimer then
        (stepConnectBody { st with reconnectTimer := false }, [])
      else (st, [])

/-- State part of a controller step. -/
def clientStep (cfg : ClientOptions) (e : ClientEvent) (st : ClientState) :
    ClientState :=
  (clientStepE cfg e st).1

/-- Run of an event sequence from a state. -/
def runClient (cfg : ClientOptions) (evs : List ClientEvent) (st : ClientState) :
    ClientState :=
  evs.foldl (fun s e => clientStep cfg e s) st

/-- Number of live sockets the controller is responsible for: detached ones
still live, plus the current one when live. -/
def liveSocketCount (st : ClientState) : Nat :=
  (st.detached.filter isLive).length +
    (match st.socket with
     | some rs => if isLive rs then 1 else 0
     | none => 0)

/-! ### HTTP status endpoints (src/server.js)

Each handler is a pure function of the outcome of the synchronous
`ffmpeg -version` probe. -/

/-- Outcome of the synchronous ffmpeg version probe: ok with the first
output line, or a thrown error with its message. -/
structure FfmpegProbe where
  ok : Bool
  versionLine : String
  errMsg : String
deriving DecidableEq, Repr

/-- Body of GET /health (server.js lines 43-90), reduced to the fields the
design names. -/
structure HealthBody where
  status : String
  message : String
  ffmpegAvailable : Bool
  ffmpegVersion : Option String
  error : Option String
deriving DecidableEq, Repr

/-- GET /health: always HTTP 200, tool absence reported in the body. -/
def healthHandler (p : FfmpegProbe) : Nat × HealthBody :=
  (200,
   { status := if p.ok then "ok" else "error"
     message := if p.ok then "Server is running" else "FFmpeg not available"
     ffmpegAvailable := p.ok
     ffmpegVersion := if p.ok then some p.versionLine else none
     error := if p.ok then none else some p.errMsg })

/-- GET /health-plain (server.js lines 93-101): always HTTP 200 with a
short text body. -/
def healthPlainHandler (p : FfmpegProbe) : Nat × String :=
  if p.ok then (200, "OK: FFmpeg available")
  else (200, "ERROR: FFmpeg not available")

/-- Body of GET /ffmpeg-check (server.js lines 104-134). -/
structure FfmpegCheckBody where
  ffmpegAvailable : Bool
  version : Option String
  error : Option String
deriving DecidableEq, Repr

/-- GET /ffmpeg-check: always HTTP 200, both on the success and on the
catch path. -/
def ffmpegCheckHandler (p : FfmpegProbe) : Nat × FfmpegCheckBody :=
  if p.ok then
    (200, { ffmpegAvailable := true, version := some p.versionLine, error := none })
  else
    (200, { ffmpegAvailable := false, version := none, error := some p.errMsg })

/-! ### Shared concrete inputs for witnesses -/

/-- Concrete server environment with the tool available and an open socket. -/
def env0 : ServerEnv :=
  { ffmpegAvailable := true
    spawnFails := false
    freshHandle := 41
    now := 1700000000000
    nowIso := "2025-01-01T00:00:00.000Z"
    socketOpen := true }

/-- Concrete server state with one live session holding process handle 7. -/
def st0 : ServerState :=
  { activeStreams := [("a", ⟨some 7, "key-a", 10⟩), ("b", ⟨none, "key-b", 20⟩)]
    sockets := ["a", "b"] }

/-! ### Server-side theorems -/

/-- Claim C1: on socket close or error the handler tears down any associated
session subprocess and removes the session and socket bookkeeping, in every
state; running the teardown again on the resulting state is a no-op with no
effects, and entries of other sessions are untouched. -/
theorem socket_teardown_c1 (st : ServerState) (socketId : String) :
    onSocketError st socketId = onSocketClose st socketId
    ∧ mapGet (onSocketClose st socketId).1.activeStreams socketId = none
    ∧ socketId ∉ (onSocketClose st socketId).1.sockets
    ∧ (∀ sp h, mapGet st.activeStreams socketId = some sp → sp.process = some h →
        Effect.killProcess h ∈ (onSocketClose st socketId).2)
    ∧ (∀ other, other ≠ socketId →
        mapGet (onSocketClose st socketId).1.activeStreams other
          = mapGet st.activeStreams other)
    ∧ cleanupProcess (onSocketClose st socketId).1 socketId
        = ((onSocketClose st socketId).1, []) := by
  refine ⟨rfl, ?_, ?_, ?_, ?_, ?_⟩
  · simp [onSocketClose, cleanupProcess, mapGet_mapDelete_self]
  · simp [onSocketClose, cleanupProcess, mem_removeSocket]
  · intro sp h hsp hh
    simp [onSocketClose, cleanupProcess, hsp, hh]
  · intro other hne
    simp [onSocketClose, cleanupProcess, mapGet_mapDelete_ne _ _ _ hne]
  · simp [onSocketClose, cleanupProcess, mapGet_mapDelete_self,
      mapDelete_mapDelete_self]

/-- Witness for C1 at a concrete state: the kill effect for handle 7 is
emitted when socket a closes. -/
theorem socket_teardown_c1_witness :
    Effect.killProcess 7 ∈ (onSocketClose st0 "a").2 :=
  (socket_teardown_c1 st0 "a").2.2.2.1 ⟨some 7, "key-a", 10⟩ 7 (by decide) rfl

/-- Claim C2: a stream-start directive whose key is missing or empty is
answered with an error control message and leaves the whole server state,
in particular the session registry, unchanged. -/
theorem start_missing_key_c2 (env : ServerEnv) (st : ServerState)
    (socketId : String) (key : Option String)
    (hkey : keyPresent key = false) (hopen : env.socketOpen = true) :
    handleTextMessage env st socketId (.streamStart key)
      = (st, [Effect.send socketId (ServerMsg.error "No stream key provided")]) := by
  simp [handleTextMessage, hkey, sendIfOpen, hopen]

/-- Witness for C2 with the empty stream key. -/
theorem start_missing_key_c2_witness :
    handleTextMessage env0 st0 "c" (.streamStart (some ""))
      = (st0, [Effect.send "c" (ServerMsg.error "No stream key provided")]) :=
  start_missing_key_c2 env0 st0 "c" (some "") (by decide) rfl

/-- Counterexample to claim C5: the pong of part_010 carries the current
server ISO timestamp, not the timestamp of the ping.  Two pings with
different timestamps receive identical pongs, whose timestamp field differs
from both. -/
theorem ping_echo_c5_counterexample :
    (handleTextMessage env0 st0 "a" (.ping 1000)).2
        = [Effect.send "a" (ServerMsg.pong "2025-01-01T00:00:00.000Z")]
    ∧ (handleTextMessage env0 st0 "a" (.ping 1000)).2
        = (handleTextMessage env0 st0 "a" (.ping 999999)).2
    ∧ ("2025-01-01T00:00:00.000Z" : String) ≠ "1000"
    ∧ ("2025-01-01T00:00:00.000Z" : String) ≠ "999999" :=
  ⟨rfl, rfl, by decide, by decide⟩

/-- Claim C5 as amended: every ping received on an open socket is answered
with exactly one pong whose timestamp field is the current server time, and
the client on a pong computes the round-trip latency from its own recorded
ping send time, not from the field. -/
theorem ping_pong_c5_amended (env : ServerEnv) (st : ServerState)
    (socketId : String) (ts : Nat) (hopen : env.socketOpen = true)
    (cfg : ClientOptions) (cst : ClientState) (now t : Nat)
    (hcopen : socketIsOpen cst = true) (hping : cst.lastPingTime = some t) :
    handleTextMessage env st socketId (.ping ts)
      = (st, [Effect.send socketId (ServerMsg.pong env.nowIso)])
    ∧ clientStepE cfg (.recvPong now) cst
      = ({ cst with lastPingTime := none }, [ClientEffect.logLatency (now - t)]) := by
  constructor
  · simp [handleTextMessage, sendIfOpen, hopen]
  · simp [clientStepE, hcopen, hping]

/-- Witness for the amended C5 at concrete inputs. -/
theorem ping_pong_c5_amended_witness :
    handleTextMessage env0 st0 "a" (.ping 1000)
      = (st0, [Effect.send "a" (ServerMsg.pong "2025-01-01T00:00:00.000Z")])
    ∧ clientStepE {} (.recvPong 2500)
        { initClient with socket := some .opened, lastPingTime := some 2000 }
      = ({ initClient with socket := some .opened, lastPingTime := none },
         [ClientEffect.logLatency 500]) :=
  ping_pong_c5_amended env0 st0 "a" 1000 rfl {}
    { initClient with socket := some .opened, lastPingTime := some 2000 }
    2500 2000 (by decide) rfl

/-- Claim C6: a stream-start directive received while ffmpeg is unavailable
on the host is answered with an error control message, creates no session
(the state is unchanged), and is never reported as a successful start. -/
theorem tool_unavailable_c6 (env : ServerEnv) (st : ServerState)
    (socketId : String) (key : Option String) (hkey : keyPresent key = true)
    (hffmpeg : env.ffmpegAvailable = false) (hopen : env.socketOpen = true) :
    handleTextMessage env st socketId (.streamStart key)
      = (st, [Effect.send socketId (ServerMsg.error
          "Failed to start streaming process - FFmpeg may not be available")]) := by
  simp [handleTextMessage, hkey, startFFmpegProcess, hffmpeg, sendIfOpen, hopen]

/-- Witness for C6 with the tool absent. -/
theorem tool_unavailable_c6_witness :
    handleTextMessage { env0 with ffmpegAvailable := false } st0 "c"
        (.streamStart (some "abc123"))
      = (st0, [Effect.send "c" (ServerMsg.error
          "Failed to start streaming process - FFmpeg may not be available")]) :=
  tool_unavailable_c6 { env0 with ffmpegAvailable := false } st0 "c"
    (some "abc123") (by decide) rfl rfl

/-- Claim C10: a stream-start directive on a connection that already has an
active session overwrites its registry entry with the new session and emits
only the delayed live status; no teardown of the previously recorded
subprocess handle is invoked. -/
theorem restart_overwrites_c10 (env : ServerEnv) (st : ServerState)
    (socketId : String) (key : Option String) (oldSp : StreamProcess) (oldH : Nat)
    (hold : mapGet st.activeStreams socketId = some oldSp)
    (holdH : oldSp.process = some oldH) (hkey : keyPresent key = true)
    (hffmpeg : env.ffmpegAvailable = true) (hspawn : env.spawnFails = false) :
    mapGet (handleTextMessage env st socketId (.streamStart key)).1.activeStreams socketId
        = some ⟨some env.freshHandle, key.getD "", env.now⟩
    ∧ (handleTextMessage env st socketId (.streamStart key)).2
        = [Effect.sendDelayed 2000 socketId
            (ServerMsg.streamStatus "live" "Stream is now live on Facebook")]
    ∧ Effect.killProcess oldH ∉ (handleTextMessage env st socketId (.streamStart key)).2 := by
  refine ⟨?_, ?_, ?_⟩
  · simp [handleTextMessage, hkey, startFFmpegProcess, hffmpeg, hspawn, mapGet_mapSet_self]
  · simp [handleTextMessage, hkey, startFFmpegProcess, hffmpeg, hspawn]
  · simp [handleTextMessage, hkey, startFFmpegProcess, hffmpeg, hspawn]

/-- Witness for C10: restarting the stream of socket a, whose session holds
handle 7, overwrites the entry and emits no kill effect. -/
theorem restart_overwrites_c10_witness :
    mapGet (handleTextMessage env0 st0 "a" (.streamStart (some "k2"))).1.activeStreams "a"
        = some ⟨some 41, "k2", 1700000000000⟩
    ∧ Effect.killProcess 7 ∉ (handleTextMessage env0 st0 "a" (.streamStart (some "k2"))).2 :=
  ⟨(restart_overwrites_c10 env0 st0 "a" (some "k2") ⟨some 7, "key-a", 10⟩ 7
      (by decide) rfl (by decide) rfl rfl).1,
   (restart_overwrites_c10 env0 st0 "a" (some "k2") ⟨some 7, "key-a", 10⟩ 7
      (by decide) rfl (by decide) rfl rfl).2.2⟩

/-- Claim C8: the status endpoints always answer HTTP 200, and when the
probe failed the negative result is carried in the body. -/
theorem status_endpoints_c8 (p : FfmpegProbe) :
    (healthHandler p).1 = 200
    ∧ (healthPlainHandler p).1 = 200
    ∧ (ffmpegCheckHandler p).1 = 200
    ∧ (p.ok = false →
        (healthHandler p).2.ffmpegAvailable = false
        ∧ (healthPlainHandler p).2 = "ERROR: FFmpeg not available"
        ∧ (ffmpegCheckHandler p).2.ffmpegAvailable = false) := by
  refine ⟨rfl, ?_, ?_, ?_⟩
  · by_cases h : p.ok <;> simp [healthPlainHandler, h]
  · by_cases h : p.ok <;> simp [ffmpegCheckHandler, h]
  · intro h
    simp [healthHandler, healthPlainHandler, ffmpegCheckHandler, h]

/-- Witness for C8 with the probe failing. -/
theorem status_endpoints_c8_witness :
    (healthPlainHandler ⟨false, "", "ffmpeg: not found"⟩).1 = 200
    ∧ (healthPlainHandler ⟨false, "", "ffmpeg: not found"⟩).2
        = "ERROR: FFmpeg not available" :=
  ⟨(status_endpoints_c8 ⟨false, "", "ffmpeg: not found"⟩).2.1,
   ((status_endpoints_c8 ⟨false, "", "ffmpeg: not found"⟩).2.2.2 rfl).2.1⟩

/-! ### Client-side helper lemmas -/

theorem cleanUp_status (st : ClientState) : (cleanUp st).status = st.status := by
  unfold cleanUp
  cases st.socket <;> rfl

theorem cleanUp_detached (st : ClientState) :
    (cleanUp st).detached =
      match st.socket with
      | none => st.detached
      | some rs => (if isLive rs then SockState.closing else rs) :: st.detached := by
  unfold cleanUp
  cases st.socket <;> rfl

theorem stepConnectBody_status (st : ClientState) :
    (stepConnectBody st).status = Phase.connecting := rfl

theorem stepConnectBody_socket (st : ClientState) :
    (stepConnectBody st).socket = some SockState.connecting := rfl

theorem stepConnectBody_attempts (st : ClientState) :
    (stepConnectBody st).reconnectAttempts = st.reconnectAttempts := by
  unfold stepConnectBody cleanUp
  cases st.socket <;> rfl

theorem sendBinaryData_status (st : ClientState) (size : Nat) :
    (sendBinaryData st size).1.status = st.status := by
  unfold sendBinaryData
  split <;> rfl

theorem sendBinaryData_attempts (st : ClientState) (size : Nat) :
    (sendBinaryData st size).1.reconnectAttempts = st.reconnectAttempts := by
  unfold sendBinaryData
  split <;> rfl

theorem sendBinaryData_detached (st : ClientState) (size : Nat) :
    (sendBinaryData st size).1.detached = st.detached := by
  unfold sendBinaryData
  split <;> rfl

theorem cleanUp_detached_dead (st : ClientState)
    (h : ∀ rs ∈ st.detached, isLive rs = false) :
    ∀ rs ∈ (cleanUp st).detached, isLive rs = false := by
  intro rs hmem
  rw [cleanUp_detached] at hmem
  cases hs : st.socket with
  | none =>
      rw [hs] at hmem
      exact h rs hmem
  | some rs0 =>
      rw [hs] at hmem
      simp only [List.mem_cons] at hmem
      rcases hmem with rfl | hmem
      · by_cases hl : isLive rs0 = true
        · rw [if_pos hl]
          rfl
        · rw [if_neg hl]
          simpa using hl
      · exact h rs hmem

theorem stepConnectBody_detached_dead (st : ClientState)
    (h : ∀ rs ∈ st.detached, isLive rs = false) :
    ∀ rs ∈ (stepConnectBody st).detached, isLive rs = false := by
  unfold stepConnectBody
  exact cleanUp_detached_dead st h

/-- Fold of an event list splits at the last event. -/
theorem runClient_append_single (cfg : ClientOptions) (evs : List ClientEvent)
    (e : ClientEvent) (st : ClientState) :
    runClient cfg (evs ++ [e]) st = clientStep cfg e (runClient cfg evs st) := by
  simp [runClient, List.foldl_append]

/-- Invariant preservation lifts from one step to a run. -/
theorem runClient_preserves (cfg : ClientOptions) (P : ClientState → Prop)
    (hstep : ∀ e st, P st → P (clientStep cfg e st)) :
    ∀ evs st, P st → P (runClient cfg evs st) := by
  intro evs
  induction evs with
  | nil => intro st h; exact h
  | cons e rest ih =>
      intro st h
      exact ih (clientStep cfg e st) (hstep e st h)

/-- Every step keeps all detached sockets non-live: the only way a socket
reference is dropped is cleanUp, which closes live sockets first. -/
theorem detached_dead_step (cfg : ClientOptions) (e : ClientEvent) (st : ClientState)
    (h : ∀ rs ∈ st.detached, isLive rs = false) :
    ∀ rs ∈ (clientStep cfg e st).detached, isLive rs = false := by
  cases e with
  | connectCall =>
      simpa [clientStep, clientStepE] using stepConnectBody_detached_dead st h
  | socketOpened =>
      cases hs : st.socket with
      | none => simpa [clientStep, clientStepE, hs] using h
      | some rs0 => cases rs0 <;> simpa [clientStep, clientStepE, hs] using h
  | socketClosed =>
      cases hs : st.socket with
      | none => simpa [clientStep, clientStepE, hs] using h
      | some rs0 =>
          by_cases hl : isLive rs0 = true
          · simp only [clientStep, clientStepE, hs, hl, if_true]
            split
            · simpa using h
            · split
              · simpa using h
              · simpa using h
          · simpa [clientStep, clientStepE, hs, hl] using h
  | socketErrored =>
      cases hs : st.socket with
      | none => simpa [clientStep, clientStepE, hs] using h
      | some rs0 =>
          by_cases hl : isLive rs0 = true <;>
            simpa [clientStep, clientStepE, hs, hl] using h
  | disconnectCall =>
      have h2 : ∀ rs ∈ ({ st with status := Phase.disconnected } : ClientState).detached,
          isLive rs = false := h
      simpa [clientStep, clientStepE] using
        cleanUp_detached_dead { st with status := Phase.disconnected } h2
  | startStreamSend key =>
      by_cases hso : socketIsOpen st = true <;>
        simpa [clientStep, clientStepE, hso] using h
  | stopStreamSend =>
      by_cases hso : socketIsOpen st = true <;>
        simpa [clientStep, clientStepE, hso] using h
  | recvConnection => simpa [clientStep, clientStepE] using h
  | recvStatusLive now =>
      by_cases hso : socketIsOpen st = true <;>
        simpa [clientStep, clientStepE, hso] using h
  | recvStatusStopped =>
      by_cases hso : socketIsOpen st = true <;>
        simpa [clientStep, clientStepE, hso] using h
  | recvPong now =>
      by_cases hso : socketIsOpen st = true
      · cases hp : st.lastPingTime <;>
          simpa [clientStep, clientStepE, hso, hp] using h
      · simpa [clientStep, clientStepE, hso] using h
  | recvError msg => simpa [clientStep, clientStepE] using h
  | sendChunk size =>
      intro rs hmem
      rw [clientStep, clientStepE, sendBinaryData_detached] at hmem
      exact h rs hmem
  | heartbeat now =>
      by_cases hso : socketIsOpen st = true <;>
        simpa [clientStep, clientStepE, hso] using h
  | reconnectTimerFired =>
      by_cases ht : st.reconnectTimer = true
      · have h2 : ∀ rs ∈ ({ st with reconnectTimer := false } : ClientState).detached,
            isLive rs = false := h
        simpa [clientStep, clientStepE, ht] using
          stepConnectBody_detached_dead { st with reconnectTimer := false } h2
      · simpa [clientStep, clientStepE, ht] using h

theorem filter_isLive_nil (l : List SockState)
    (h : ∀ rs ∈ l, isLive rs = false) : l.filter isLive = [] := by
  induction l with
  | nil => rfl
  | cons a rest ih =>
      have ha := h a (List.mem_cons_self a rest)
      simp [List.filter_cons, ha,
        ih (fun rs hrs => h rs (List.mem_cons_of_mem a hrs))]

theorem live_count_le_one (st : ClientState)
    (h : ∀ rs ∈ st.detached, isLive rs = false) : liveSocketCount st ≤ 1 := by
  unfold liveSocketCount
  rw [filter_isLive_nil st.detached h]
  cases st.socket with
  | none => simp
  | some rs => by_cases hl : isLive rs = true <;> simp [hl]

theorem connect_live_count (st : ClientState)
    (h : ∀ rs ∈ st.detached, isLive rs = false) :
    liveSocketCount (stepConnectBody st) = 1 := by
  unfold liveSocketCount
  rw [stepConnectBody_socket,
    filter_isLive_nil _ (stepConnectBody_detached_dead st h)]
  rfl

/-! ### Client-side claim theorems -/

/-- Claim C7: over every sequence of controller events from the initial
state, at most one live socket exists, and a connect() call always results
in exactly one live socket: its cleanUp closes and detaches any prior
socket before a new one is opened. -/
theorem single_live_socket_c7 (cfg : ClientOptions) (evs : List ClientEvent) :
    liveSocketCount (runClient cfg evs initClient) ≤ 1
    ∧ liveSocketCount (runClient cfg (evs ++ [ClientEvent.connectCall]) initClient) = 1 := by
  have hdet : ∀ rs ∈ (runClient cfg evs initClient).detached, isLive rs = false :=
    runClient_preserves cfg (fun s => ∀ rs ∈ s.detached, isLive rs = false)
      (fun e s hz => detached_dead_step cfg e s hz) evs initClient
      (by intro rs hmem; simp [initClient] at hmem)
  constructor
  · exact live_count_le_one _ hdet
  · rw [runClient_append_single]
    exact connect_live_count _ hdet

/-- Every step keeps the reconnect counter within the configured maximum:
it is only incremented under the strict bound check and reset on open. -/
theorem attempts_bounded_step (cfg : ClientOptions) (e : ClientEvent)
    (st : ClientState)
    (h : st.reconnectAttempts ≤ cfg.maxReconnectAttempts) :
    (clientStep cfg e st).reconnectAttempts ≤ cfg.maxReconnectAttempts := by
  cases e with
  | connectCall =>
      simpa [clientStep, clientStepE, stepConnectBody_attempts] using h
  | socketOpened =>
      cases hs : st.socket with
      | none => simpa [clientStep, clientStepE, hs] using h
      | some rs0 => cases rs0 <;> simp [clientStep, clientStepE, hs] <;> exact h
  | socketClosed =>
      cases hs : st.socket with
      | none => simpa [clientStep, clientStepE, hs] using h
      | some rs0 =>
          by_cases hl : isLive rs0 = true
          · simp only [clientStep, clientStepE, hs, hl, if_true]
            split
            · rename_i hcond
              exact hcond.2
            · split
              · simpa using h
              · simpa using h
          · simpa [clientStep, clientStepE, hs, hl] using h
  | socketErrored =>
      cases hs : st.socket with
      | none => simpa [clientStep, clientStepE, hs] using h
      | some rs0 =>
          by_cases hl : isLive rs0 = true <;>
            simpa [clientStep, clientStepE, hs, hl] using h
  | disconnectCall =>
      have : (cleanUp { st with status := Phase.disconnected }).reconnectAttempts
          = st.reconnectAttempts := by
        unfold cleanUp
        cases st.socket <;> rfl
      simpa [clientStep, clientStepE, this] using h
  | startStreamSend key =>
      by_cases hso : socketIsOpen st = true <;>
        simpa [clientStep, clientStepE, hso] using h
  | stopStreamSend =>
      by_cases hso : socketIsOpen st = true <;>
        simpa [clientStep, clientStepE, hso] using h
  | recvConnection => simpa [clientStep, clientStepE] using h
  | recvStatusLive now =>
      by_cases hso : socketIsOpen st = true <;>
        simpa [clientStep, clientStepE, hso] using h
  | recvStatusStopped =>
      by_cases hso : socketIsOpen st = true <;>
        simpa [clientStep, clientStepE, hso] using h
  | recvPong now =>
      by_cases hso : socketIsOpen st = true
      · cases hp : st.lastPingTime <;>
          simpa [clientStep, clientStepE, hso, hp] using h
      · simpa [clientStep, clientStepE, hso] using h
  | recvError msg => simpa [clientStep, clientStepE] using h
  | sendChunk size =>
      rw [clientStep, clientStepE, sendBinaryData_attempts]
      exact h
  | heartbeat now =>
      by_cases hso : socketIsOpen st = true <;>
        simpa [clientStep, clientStepE, hso] using h
  | reconnectTimerFired =>
      by_cases ht : st.reconnectTimer = true
      · have : (stepConnectBody { st with reconnectTimer := false }).reconnectAttempts
            = st.reconnectAttempts := stepConnectBody_attempts _
        simpa [clientStep, clientStepE, ht, this] using h
      · simpa [clientStep, clientStepE, ht] using h

/-- Claim C4 as amended: the reconnect counter never exceeds the configured
maximum over any event sequence; a close arriving with the counter at the
maximum schedules no reconnect timer, records the exhaustion diagnostic in
the error field, and leaves the phase at disconnected (not error). -/
theorem reconnect_capped_c4_amended (cfg : ClientOptions) (evs : List ClientEvent)
    (st : ClientState) (rs : SockState) (hs : st.socket = some rs)
    (hl : isLive rs = true)
    (hmax : cfg.maxReconnectAttempts ≤ st.reconnectAttempts) :
    (runClient cfg evs initClient).reconnectAttempts ≤ cfg.maxReconnectAttempts
    ∧ (clientStep cfg .socketClosed st).status = Phase.disconnected
    ∧ (clientStep cfg .socketClosed st).error
        = some (exhaustMessage cfg.maxReconnectAttempts)
    ∧ (clientStep cfg .socketClosed st).reconnectTimer = st.reconnectTimer
    ∧ (clientStep cfg .socketClosed st).reconnectAttempts = st.reconnectAttempts := by
  have hrun : (runClient cfg evs initClient).reconnectAttempts
      ≤ cfg.maxReconnectAttempts :=
    runClient_preserves cfg
      (fun s => s.reconnectAttempts ≤ cfg.maxReconnectAttempts)
      (fun e s hz => attempts_bounded_step cfg e s hz) evs initClient
      (by simp [initClient])
  have hnotlt : ¬ (cfg.autoReconnect = true ∧
      st.reconnectAttempts < cfg.maxReconnectAttempts) := by
    rintro ⟨-, hlt⟩
    omega
  refine ⟨hrun, ?_, ?_, ?_, ?_⟩ <;>
    simp [clientStep, clientStepE, hs, hl, hnotlt, hmax]

/-- Witness for the amended C4: the state reached after five failed
reconnect cycles has the counter at the maximum, and the sixth close stores
the diagnostic without scheduling a timer. -/
theorem reconnect_capped_c4_amended_witness :
    (runClient {} [ClientEvent.connectCall] initClient).reconnectAttempts ≤ 5
    ∧ (clientStep {} .socketClosed
        (runClient {}
          [ClientEvent.connectCall, .socketClosed, .reconnectTimerFired,
           .socketClosed, .reconnectTimerFired, .socketClosed, .reconnectTimerFired,
           .socketClosed, .reconnectTimerFired, .socketClosed, .reconnectTimerFired]
          initClient)).error = some (exhaustMessage 5) := by
  refine ⟨(reconnect_capped_c4_amended {} [ClientEvent.connectCall]
      (runClient {}
        [ClientEvent.connectCall, .socketClosed, .reconnectTimerFired,
         .socketClosed, .reconnectTimerFired, .socketClosed, .reconnectTimerFired,
         .socketClosed, .reconnectTimerFired, .socketClosed, .reconnectTimerFired]
        initClient)
      SockState.connecting (by decide) rfl (by decide)).1,
    (reconnect_capped_c4_amended {} [ClientEvent.connectCall]
      (runClient {}
        [ClientEvent.connectCall, .socketClosed, .reconnectTimerFired,
         .socketClosed, .reconnectTimerFired, .socketClosed, .reconnectTimerFired,
         .socketClosed, .reconnectTimerFired, .socketClosed, .reconnectTimerFired]
        initClient)
      SockState.connecting (by decide) rfl (by decide)).2.2.1⟩

/-- Counterexample to claim C4: after the reconnect budget of five is
exhausted the phase is disconnected, not error; the diagnostic lives in the
error field and no timer is scheduled. -/
theorem reconnect_exhaustion_c4_counterexample :
    (runClient {}
        [ClientEvent.connectCall, .socketClosed, .reconnectTimerFired,
         .socketClosed, .reconnectTimerFired, .socketClosed, .reconnectTimerFired,
         .socketClosed, .reconnectTimerFired, .socketClosed, .reconnectTimerFired,
         .socketClosed]
        initClient).status = Phase.disconnected
    ∧ (runClient {}
        [ClientEvent.connectCall, .socketClosed, .reconnectTimerFired,
         .socketClosed, .reconnectTimerFired, .socketClosed, .reconnectTimerFired,
         .socketClosed, .reconnectTimerFired, .socketClosed, .reconnectTimerFired,
         .socketClosed]
        initClient).status ≠ Phase.error
    ∧ (runClient {}
        [ClientEvent.connectCall, .socketClosed, .reconnectTimerFired,
         .socketClosed, .reconnectTimerFired, .socketClosed, .reconnectTimerFired,
         .socketClosed, .reconnectTimerFired, .socketClosed, .reconnectTimerFired,
         .socketClosed]
        initClient).reconnectAttempts = 5
    ∧ (runClient {}
        [ClientEvent.connectCall, .socketClosed, .reconnectTimerFired,
         .socketClosed, .reconnectTimerFired, .socketClosed, .reconnectTimerFired,
         .socketClosed, .reconnectTimerFired, .socketClosed, .reconnectTimerFired,
         .socketClosed]
        initClient).reconnectTimer = false := by
  refine ⟨by decide, by decide, by decide, by decide⟩


/-- An open guard pins the current socket readyState. -/
theorem socketIsOpen_some (st : ClientState) :
    socketIsOpen st = true → st.socket = some SockState.opened := by
  unfold socketIsOpen
  cases hs : st.socket with
  | none => intro h; exact absurd h (by decide)
  | some rs =>
      cases rs with
      | connecting => intro h; exact absurd h (by decide)
      | opened => intro _; rfl
      | closing => intro h; exact absurd h (by decide)
      | closed => intro h; exact absurd h (by decide)

/-- Every step keeps the invariant that the streaming phase implies the
streaming flag and an open current socket. -/
theorem streaming_open_step (cfg : ClientOptions) (e : ClientEvent) (st : ClientState)
    (h : st.status = Phase.streaming → st.isStreaming = true ∧ socketIsOpen st = true) :
    (clientStep cfg e st).status = Phase.streaming →
      (clientStep cfg e st).isStreaming = true
      ∧ socketIsOpen (clientStep cfg e st) = true := by
  cases e with
  | connectCall => simp [clientStep, clientStepE, stepConnectBody_status]
  | socketOpened =>
      cases hs : st.socket with
      | none => simpa [clientStep, clientStepE, hs] using h
      | some rs0 =>
          cases rs0 with
          | connecting => simp [clientStep, clientStepE, hs]
          | opened => simpa [clientStep, clientStepE, hs] using h
          | closing => simpa [clientStep, clientStepE, hs] using h
          | closed => simpa [clientStep, clientStepE, hs] using h
  | socketClosed =>
      cases hs : st.socket with
      | none => simpa [clientStep, clientStepE, hs] using h
      | some rs0 =>
          by_cases hl : isLive rs0 = true
          · simp only [clientStep, clientStepE, hs, hl, if_true]
            split
            · simp
            · split <;> simp
          · simpa [clientStep, clientStepE, hs, hl] using h
  | socketErrored =>
      cases hs : st.socket with
      | none => simpa [clientStep, clientStepE, hs] using h
      | some rs0 =>
          cases rs0 with
          | connecting => simpa [clientStep, clientStepE, socketIsOpen, isLive, hs] using h
          | opened => simpa [clientStep, clientStepE, socketIsOpen, isLive, hs] using h
          | closing => simpa [clientStep, clientStepE, socketIsOpen, isLive, hs] using h
          | closed => simpa [clientStep, clientStepE, socketIsOpen, isLive, hs] using h
  | disconnectCall =>
      simp only [clientStep, clientStepE]
      rw [cleanUp_status]
      simp
  | startStreamSend key =>
      by_cases hso : socketIsOpen st = true
      · have hs := socketIsOpen_some st hso
        simpa [clientStep, clientStepE, socketIsOpen, hso, hs] using h
      · simpa [clientStep, clientStepE, hso] using h
  | stopStreamSend =>
      by_cases hso : socketIsOpen st = true
      · simpa [clientStep, clientStepE, hso] using h
      · simpa [clientStep, clientStepE, hso] using h
  | recvConnection => simpa [clientStep, clientStepE] using h
  | recvStatusLive now =>
      by_cases hso : socketIsOpen st = true
      · have hs := socketIsOpen_some st hso
        simp [clientStep, clientStepE, socketIsOpen, hso, hs]
      · simpa [clientStep, clientStepE, hso] using h
  | recvStatusStopped =>
      by_cases hso : socketIsOpen st = true
      · simp [clientStep, clientStepE, hso]
      · simpa [clientStep, clientStepE, hso] using h
  | recvPong now =>
      by_cases hso : socketIsOpen st = true
      · have hs := socketIsOpen_some st hso
        cases hp : st.lastPingTime with
        | none => simpa [clientStep, clientStepE, hso, hp] using h
        | some t => simpa [clientStep, clientStepE, socketIsOpen, hso, hs, hp] using h
      · simpa [clientStep, clientStepE, hso] using h
  | recvError msg => simpa [clientStep, clientStepE] using h
  | sendChunk size =>
      by_cases hso : socketIsOpen st = true
      · have hs := socketIsOpen_some st hso
        by_cases hstr : st.isStreaming = true
        · simp [clientStep, clientStepE, sendBinaryData, socketIsOpen, hso, hs, hstr]
        · have hstr2 : st.isStreaming = false := by simpa using hstr
          simpa [clientStep, clientStepE, sendBinaryData, hso, hstr2] using h
      · have hso2 : socketIsOpen st = false := by simpa using hso
        simpa [clientStep, clientStepE, sendBinaryData, hso2] using h
  | heartbeat now =>
      by_cases hso : socketIsOpen st = true
      · have hs := socketIsOpen_some st hso
        simpa [clientStep, clientStepE, socketIsOpen, hso, hs] using h
      · simpa [clientStep, clientStepE, hso] using h
  | reconnectTimerFired =>
      by_cases ht : st.reconnectTimer = true
      · simp [clientStep, clientStepE, ht, stepConnectBody_status]
      · simpa [clientStep, clientStepE, ht] using h

/-- The phase after one step is either unchanged, one of the constants
connecting, connected or disconnected, or streaming via a live status
message. -/
theorem clientStep_status_cases (cfg : ClientOptions) (e : ClientEvent)
    (st : ClientState) :
    (clientStep cfg e st).status = st.status
    ∨ (clientStep cfg e st).status = Phase.connecting
    ∨ (clientStep cfg e st).status = Phase.connected
    ∨ (clientStep cfg e st).status = Phase.disconnected
    ∨ ((clientStep cfg e st).status = Phase.streaming
        ∧ ∃ n, e = ClientEvent.recvStatusLive n) := by
  cases e with
  | connectCall => exact Or.inr (Or.inl (stepConnectBody_status st))
  | socketOpened =>
      cases hs : st.socket with
      | none => exact Or.inl (by simp [clientStep, clientStepE, hs])
      | some rs0 =>
          cases rs0 with
          | connecting =>
              exact Or.inr (Or.inr (Or.inl (by simp [clientStep, clientStepE, hs])))
          | opened => exact Or.inl (by simp [clientStep, clientStepE, hs])
          | closing => exact Or.inl (by simp [clientStep, clientStepE, hs])
          | closed => exact Or.inl (by simp [clientStep, clientStepE, hs])
  | socketClosed =>
      cases hs : st.socket with
      | none => exact Or.inl (by simp [clientStep, clientStepE, hs])
      | some rs0 =>
          by_cases hl : isLive rs0 = true
          · refine Or.inr (Or.inr (Or.inr (Or.inl ?_)))
            simp only [clientStep, clientStepE, hs, hl, if_true]
            split
            · rfl
            · split <;> rfl
          · exact Or.inl (by simp [clientStep, clientStepE, hs, hl])
  | socketErrored =>
      cases hs : st.socket with
      | none => exact Or.inl (by simp [clientStep, clientStepE, hs])
      | some rs0 =>
          by_cases hl : isLive rs0 = true
          · exact Or.inl (by simp [clientStep, clientStepE, hs, hl])
          · exact Or.inl (by simp [clientStep, clientStepE, hs, hl])
  | disconnectCall =>
      refine Or.inr (Or.inr (Or.inr (Or.inl ?_)))
      simp only [clientStep, clientStepE]
      rw [cleanUp_status]
  | startStreamSend key =>
      by_cases hso : socketIsOpen st = true
      · exact Or.inl (by simp [clientStep, clientStepE, hso])
      · exact Or.inl (by simp [clientStep, clientStepE, hso])
  | stopStreamSend =>
      by_cases hso : socketIsOpen st = true
      · exact Or.inl (by simp [clientStep, clientStepE, hso])
      · exact Or.inl (by simp [clientStep, clientStepE, hso])
  | recvConnection => exact Or.inl rfl
  | recvStatusLive n =>
      by_cases hso : socketIsOpen st = true
      · exact Or.inr (Or.inr (Or.inr (Or.inr
          ⟨by simp [clientStep, clientStepE, hso], n, rfl⟩)))
      · exact Or.inl (by simp [clientStep, clientStepE, hso])
  | recvStatusStopped =>
      by_cases hso : socketIsOpen st = true
      · exact Or.inr (Or.inr (Or.inl (by simp [clientStep, clientStepE, hso])))
      · exact Or.inl (by simp [clientStep, clientStepE, hso])
  | recvPong n =>
      by_cases hso : socketIsOpen st = true
      · cases hp : st.lastPingTime with
        | none => exact Or.inl (by simp [clientStep, clientStepE, hso, hp])
        | some t => exact Or.inl (by simp [clientStep, clientStepE, hso, hp])
      · exact Or.inl (by simp [clientStep, clientStepE, hso])
  | recvError m => exact Or.inl rfl
  | sendChunk size => exact Or.inl (sendBinaryData_status st size)
  | heartbeat n =>
      by_cases hso : socketIsOpen st = true
      · exact Or.inl (by simp [clientStep, clientStepE, hso])
      · exact Or.inl (by simp [clientStep, clientStepE, hso])
  | reconnectTimerFired =>
      by_cases ht : st.reconnectTimer = true
      · exact Or.inr (Or.inl (by simp [clientStep, clientStepE, ht, stepConnectBody_status]))
      · exact Or.inl (by simp [clientStep, clientStepE, ht])

/-- Claim C3: a start directive leaves the phase unchanged at the moment it
is sent, so it does not become streaming then; the phase becomes streaming
on receipt of a live stream-status message, and no other event moves a
non-streaming phase to streaming. -/
theorem live_transition_c3 (cfg : ClientOptions) (st : ClientState) (key : String)
    (now : Nat) (e : ClientEvent) (hopen : socketIsOpen st = true) :
    (clientStep cfg (.startStreamSend key) st).status = st.status
    ∧ (clientStep cfg (.recvStatusLive now) st).status = Phase.streaming
    ∧ ((clientStep cfg e st).status = Phase.streaming →
        st.status = Phase.streaming ∨ ∃ n, e = ClientEvent.recvStatusLive n) := by
  refine ⟨?_, ?_, ?_⟩
  · by_cases hso : socketIsOpen st = true
    · simp [clientStep, clientStepE, hso]
    · simp [clientStep, clientStepE, hso]
  · simp [clientStep, clientStepE, hopen]
  · intro hst
    rcases clientStep_status_cases cfg e st with hc | hc | hc | hc | hc
    · exact Or.inl (hc.symm.trans hst)
    · exact absurd (hc.symm.trans hst) (by decide)
    · exact absurd (hc.symm.trans hst) (by decide)
    · exact absurd (hc.symm.trans hst) (by decide)
    · exact Or.inr hc.2

/-- Witness for C3 on the concrete connected state. -/
theorem live_transition_c3_witness :
    (clientStep {} (.startStreamSend "abc123")
        (runClient {} [ClientEvent.connectCall, .socketOpened] initClient)).status
      = (runClient {} [ClientEvent.connectCall, .socketOpened] initClient).status
    ∧ (clientStep {} (.recvStatusLive 100)
        (runClient {} [ClientEvent.connectCall, .socketOpened] initClient)).status
      = Phase.streaming :=
  ⟨(live_transition_c3 {} (runClient {} [ClientEvent.connectCall, .socketOpened] initClient)
      "abc123" 100 ClientEvent.recvConnection (by decide)).1,
   (live_transition_c3 {} (runClient {} [ClientEvent.connectCall, .socketOpened] initClient)
      "abc123" 100 ClientEvent.recvConnection (by decide)).2.1⟩

/-- Event trace reaching the streaming phase. -/
def streamingTrace : List ClientEvent :=
  [ClientEvent.connectCall, .socketOpened, .startStreamSend "abc123",
   .recvStatusLive 100]

/-- State reached by the streaming trace. -/
def streamingSt : ClientState := runClient {} streamingTrace initClient

/-- Event trace that reconnects while streaming: the cleanUp inside
connect() detaches the handlers before closing the old socket, so no close
event resets the isStreaming flag, and the new socket then opens. -/
def reconnectWhileStreamingTrace : List ClientEvent :=
  streamingTrace ++ [ClientEvent.connectCall, .socketOpened]

/-- State reached by the reconnect-while-streaming trace. -/
def reconnectWhileStreamingSt : ClientState :=
  runClient {} reconnectWhileStreamingTrace initClient

/-- Claim C9 as amended: sendBinaryData is gated on the isStreaming flag
together with an open socket, not on the phase itself; with the flag unset
or the socket not open it is a warning-only no-op leaving the state
unchanged, and with the flag set on an open socket, in particular whenever
the phase is streaming, the blob goes out as one binary frame with
bytesSent grown by its size and dataChunks by one. -/
theorem chunk_gate_c9_amended (cfg : ClientOptions) (evs : List ClientEvent)
    (size : Nat) (st : ClientState) (hst : st = runClient cfg evs initClient) :
    (st.isStreaming = false →
        sendBinaryData st size = (st, [ClientEffect.warn cannotSendMsg]))
    ∧ (socketIsOpen st = false →
        sendBinaryData st size = (st, [ClientEffect.warn cannotSendMsg]))
    ∧ (st.isStreaming = true → socketIsOpen st = true →
        sendBinaryData st size
          = ({ st with
               bytesSent := st.bytesSent + size,
               dataChunks := st.dataChunks + 1 },
             [ClientEffect.sendFrame size]))
    ∧ (st.status = Phase.streaming →
        sendBinaryData st size
          = ({ st with
               bytesSent := st.bytesSent + size,
               dataChunks := st.dataChunks + 1 },
             [ClientEffect.sendFrame size])) := by
  have hinv : st.status = Phase.streaming →
      st.isStreaming = true ∧ socketIsOpen st = true := by
    subst hst
    exact runClient_preserves cfg
      (fun s => s.status = Phase.streaming →
        s.isStreaming = true ∧ socketIsOpen s = true)
      (fun e s hz => streaming_open_step cfg e s hz) evs initClient
      (by simp [initClient])
  refine ⟨?_, ?_, ?_, ?_⟩
  · intro hfl
    simp [sendBinaryData, hfl]
  · intro hso
    simp [sendBinaryData, hso]
  · intro h1 h2
    simp [sendBinaryData, h1, h2]
  · intro hstat
    obtain ⟨h1, h2⟩ := hinv hstat
    simp [sendBinaryData, h1, h2]

/-- Witness for the amended C9: on the concrete streaming state a chunk of
7 bytes goes out as one frame and the counters grow. -/
theorem chunk_gate_c9_amended_witness :
    sendBinaryData streamingSt 7
      = ({ streamingSt with
           bytesSent := streamingSt.bytesSent + 7,
           dataChunks := streamingSt.dataChunks + 1 },
         [ClientEffect.sendFrame 7]) :=
  (chunk_gate_c9_amended {} streamingTrace 7 streamingSt rfl).2.2.2 (by decide)

/-- Counterexample to claim C9: after reconnecting while streaming the
phase is connected, not streaming, yet a chunk is still sent as a frame and
the byte counter still grows. -/
theorem chunk_gate_c9_counterexample :
    reconnectWhileStreamingSt.status = Phase.connected
    ∧ reconnectWhileStreamingSt.status ≠ Phase.streaming
    ∧ (sendBinaryData reconnectWhileStreamingSt 7).2 = [ClientEffect.sendFrame 7]
    ∧ (sendBinaryData reconnectWhileStreamingSt 7).1.bytesSent
        = reconnectWhileStreamingSt.bytesSent + 7 :=
  ⟨by decide, by decide, by decide, by decide⟩

end StreamRelay
